import Mathlib

/-!
Verification development for the EmergencyAiVision (Medbot) repository.

The subject of most claims is the proximity ranker
(utils/location_services.py, find_nearby_hospitals): it computes a
haversine distance from a reference coordinate to each facility of a
static table, keeps the facilities whose distance is at most the radius,
builds one result record per kept facility (a copy of the table entry
plus a one-decimal distance string and a Google-Maps directions URL) and
sorts the records by the numeric value parsed back from that distance
string (Python: hospitals.sort(key=lambda h: float(h['distance'].split()[0]))).

Embedding choices:
* Coordinates, the radius and distances are rationals; the per-facility
  distance enters the pipeline as an explicit function `dist`, standing
  for the haversine distance from the (fixed, arbitrary) reference
  point, because the exact real value of the trigonometric formula is
  not computable.  All pipeline theorems hold for every distance
  assignment, in particular for the haversine one.
* The haversine formula itself (lines 287-297 of the source) is embedded
  over the reals in `distance_code`, and compared with the formula the
  spec states (`haversine_spec_formula`).
* Python's stable list.sort is modelled by List.mergeSort, which is
  stable in the same sense.
* Python's one-decimal float format (f-string :.1f) is modelled by
  rounding 10*q to the nearest integer; the tie convention (Python
  rounds the underlying binary double to nearest-even) differs from
  round's half-up only on exact half-tenth ties, which no claim touches.
* The remote-API wrappers (utils/gemini_api.py, utils/translation.py)
  are embedded as total functions of an explicit request outcome
  (network exception / HTTP status plus body-parse result); a raised
  exception in Python corresponds to a constructor of the outcome type,
  and "no exception propagates" is the totality of the embedding.
-/

/-- A facility record of the static table in find_nearby_hospitals
(name, address, lat, lng, phone, emergency, specialties). -/
structure Hospital where
  name : String
  address : String
  lat : ℚ
  lng : ℚ
  phone : String
  emergency : Bool
  specialties : List String
deriving DecidableEq

/-- A result record of find_nearby_hospitals: the copied facility fields
plus the two keys added in the loop body, 'distance' and 'directions_url'. -/
structure RankedResult where
  name : String
  address : String
  lat : ℚ
  lng : ℚ
  phone : String
  emergency : Bool
  specialties : List String
  distance : String
  directions_url : String
deriving DecidableEq

/-- The integer nearest 10*q, i.e. the number of tenths shown by
Python's one-decimal float format: computed exactly on the numerator and
denominator as the floor of (20*num + den)/(2*den), which equals
round(10*q) rounding half up.  (Python rounds the underlying binary
double to nearest-even; the two conventions differ only on exact
half-tenth ties, which no claim touches.) -/
def roundTenths (q : ℚ) : ℤ := Int.fdiv (20 * q.num + (q.den : ℤ)) (2 * (q.den : ℤ))

/-- Model of Python's one-decimal fixed format (the f-string :.1f used at
line 301): the decimal rendering of the nearest tenth.  Nonnegative
inputs (the only ones that occur: haversine distances) are rendered as
intpart.fracdigit. -/
def fmtFix1 (q : ℚ) : String :=
  let n : ℤ := roundTenths q
  if n < 0 then
    "-" ++ toString ((-n).toNat / 10) ++ "." ++ toString ((-n).toNat % 10)
  else
    toString (n.toNat / 10) ++ "." ++ toString (n.toNat % 10)

/-- The rounded-to-one-decimal value that the formatted string denotes. -/
def round1 (q : ℚ) : ℚ := mkRat (roundTenths q) 10

/-- Decimal digits of the proper fraction p/q (0 ≤ p < q), by long
division; fuel bounds the number of digits, and the expansion of every
coordinate in this repository terminates well within it. -/
def fracDigitsNat : Nat → Nat → Nat → String
  | _, _, 0 => ""
  | p, q, Nat.succ fuel =>
    if p = 0 then ""
    else toString (10 * p / q) ++ fracDigitsNat (10 * p % q) q fuel

/-- Model of Python's str() on the float coordinates interpolated into the
directions URL (line 304).  For coordinates with a short terminating
decimal expansion — every coordinate in this repository — Python's
shortest-roundtrip float repr is exactly the decimal literal with
trailing zeros dropped and at least one fraction digit, which is what
this renders (sign, integer part, point, fraction digits). -/
def fmtCoord (q : ℚ) : String :=
  let sign := if q.num < 0 then "-" else ""
  let na := q.num.natAbs
  let fs := fracDigitsNat (na % q.den) q.den 20
  sign ++ toString (na / q.den) ++ "." ++ (if fs = "" then "0" else fs)

/-- The Google-Maps directions URL template of line 304, with the
reference coordinate as origin and the facility coordinate as
destination. -/
def directionsUrl (lat lng dlat dlng : ℚ) : String :=
  "https://www.google.com/maps/dir/?api=1&origin=" ++ fmtCoord lat ++ "," ++ fmtCoord lng ++
    "&destination=" ++ fmtCoord dlat ++ "," ++ fmtCoord dlng ++ "&travelmode=driving"

/-- The loop body of lines 300-305: hospital.copy() plus the two added
keys, for a facility at (unrounded) distance d from reference
(lat, lng). -/
def mkEntry (lat lng : ℚ) (h : Hospital) (d : ℚ) : RankedResult :=
  { name := h.name
    address := h.address
    lat := h.lat
    lng := h.lng
    phone := h.phone
    emergency := h.emergency
    specialties := h.specialties
    distance := fmtFix1 d ++ " km"
    directions_url := directionsUrl lat lng h.lat h.lng }

/-- Value of a nonempty string of decimal digits. -/
def digitsToNat (cs : List Char) : Nat :=
  cs.foldl (fun n c => 10 * n + (c.toNat - 48)) 0

/-- Model of the sort key of line 310, float(s.split()[0]): take the
first whitespace-delimited token of the distance string and read it as a
(nonnegative) decimal number.  The tokens that occur are exactly the
one-decimal outputs of fmtFix1. -/
def parseKmFloat (s : String) : ℚ :=
  let tok := s.data.takeWhile (fun c => c ≠ ' ')
  let ip := tok.takeWhile (fun c => c ≠ '.')
  let fp := (tok.dropWhile (fun c => c ≠ '.')).drop 1
  mkRat (digitsToNat ip * 10 ^ fp.length + digitsToNat fp) (10 ^ fp.length)

/-- The key function of the sort at line 310. -/
def sortKey (e : RankedResult) : ℚ := parseKmFloat e.distance

/-- The filtering loop of lines 285-307: for each facility in table
order, keep it iff its unrounded distance is at most radius_km, building
the result record. -/
def rankEntries (lat lng radius_km : ℚ) (dist : Hospital → ℚ) : List Hospital → List RankedResult
  | [] => []
  | h :: rest =>
    if dist h ≤ radius_km then
      mkEntry lat lng h (dist h) :: rankEntries lat lng radius_km dist rest
    else
      rankEntries lat lng radius_km dist rest

/-- find_nearby_hospitals (lines 282-317), for reference (lat, lng) and per-facility
distance function dist: filter-and-annotate, then the stable sort of
line 310 keyed on the value parsed back from the formatted distance
string.  The surrounding try/except never fires: every step is total. -/
def find_nearby_hospitals (dist : Hospital → ℚ) (lat lng radius_km : ℚ)
    (table : List Hospital) : List RankedResult :=
  (rankEntries lat lng radius_km dist table).mergeSort
    (fun a b => decide (sortKey a ≤ sortKey b))

/-- Python math.radians: degrees to radians. -/
noncomputable def radians (deg : ℝ) : ℝ := deg * (Real.pi / 180)

open Classical in
/-- Python math.atan2(y, x): the full-quadrant arctangent. -/
noncomputable def atan2 (y x : ℝ) : ℝ :=
  if 0 < x then Real.arctan (y / x)
  else if x < 0 then
    (if 0 ≤ y then Real.arctan (y / x) + Real.pi else Real.arctan (y / x) - Real.pi)
  else
    (if 0 < y then Real.pi / 2 else if y < 0 then -(Real.pi / 2) else 0)

/-- The distance computation of lines 287-297, exactly as the code
writes it: convert both coordinates from degrees to radians, haversine
with R = 6371. -/
noncomputable def distance_code (lat lng hlat hlng : ℝ) : ℝ :=
  let R : ℝ := 6371
  let lat1 := radians lat
  let lon1 := radians lng
  let lat2 := radians hlat
  let lon2 := radians hlng
  let dlat := lat2 - lat1
  let dlon := lon2 - lon1
  let a := Real.sin (dlat / 2) ^ 2 + Real.cos lat1 * Real.cos lat2 * Real.sin (dlon / 2) ^ 2
  let c := 2 * atan2 (Real.sqrt a) (Real.sqrt (1 - a))
  R * c

/-- The haversine formula exactly as the spec states it in section 4.1:
a = sin²(Δlat/2) + cos(lat1)·cos(lat2)·sin²(Δlon/2),
c = 2·atan2(√a, √(1−a)), distance = R·c with R = 6371, all trigonometric
arguments in radians, inputs converted from degrees first. -/
noncomputable def haversine_spec_formula (lat1 lon1 lat2 lon2 : ℝ) : ℝ :=
  6371 *
    (2 * atan2
      (Real.sqrt (Real.sin ((radians lat2 - radians lat1) / 2) ^ 2 +
        Real.cos (radians lat1) * Real.cos (radians lat2) *
          Real.sin ((radians lon2 - radians lon1) / 2) ^ 2))
      (Real.sqrt (1 - (Real.sin ((radians lat2 - radians lat1) / 2) ^ 2 +
        Real.cos (radians lat1) * Real.cos (radians lat2) *
          Real.sin ((radians lon2 - radians lon1) / 2) ^ 2))))

/-- Parse result of a remote response body: either the JSON decode or
field extraction raised (malformed), or it yielded a payload. -/
inductive RemoteBody (α : Type) where
  | malformed (msg : String)
  | parsed (payload : α)
deriving DecidableEq

/-- Outcome of one remote HTTP call: the request itself raised a network
exception, or a response arrived with a status code and a body. -/
inductive RemoteOutcome (α : Type) where
  | netExc (msg : String)
  | resp (status : Nat) (body : RemoteBody α)
deriving DecidableEq

/-- The analysis dict produced by analyze_injury. -/
structure AnalysisResult where
  condition : String
  severity_score : Int
  visible_symptoms : List String
  immediate_actions : List String
  additional_notes : String
deriving DecidableEq

/-- The non-200 fallback dict of analyze_injury (lines 117-123). -/
def analyzeInjuryStatusFallback (status : Nat) : AnalysisResult :=
  { condition := "Analysis Error"
    severity_score := 5
    visible_symptoms := ["Unable to analyze"]
    immediate_actions := ["Seek professional medical advice"]
    additional_notes := "API Error: " ++ toString status }

/-- The exception fallback dict of analyze_injury (lines 127-133). -/
def analyzeInjuryExcFallback (msg : String) : AnalysisResult :=
  { condition := "Analysis Error"
    severity_score := 5
    visible_symptoms := ["Unable to analyze due to technical error"]
    immediate_actions := ["Seek professional medical advice"]
    additional_notes := "Error: " ++ msg }

/-- analyze_injury (gemini_api.py lines 73-133), as a function of the
request outcome.  On a 200 response whose body yields the candidate
text, the pure string post-processing of lines 87-114 is abstracted as
the parameter parseSuccess (it does not touch the network and is outside
every failure-path claim).  A malformed body — response.json() or the
candidates/content/parts extraction raising — lands in the outer except
and yields the exception fallback; a non-200 status yields the status
fallback; a network exception yields the exception fallback. -/
def analyze_injury (parseSuccess : String → AnalysisResult) :
    RemoteOutcome String → AnalysisResult
  | RemoteOutcome.netExc msg => analyzeInjuryExcFallback msg
  | RemoteOutcome.resp status body =>
    if status = 200 then
      match body with
      | RemoteBody.malformed msg => analyzeInjuryExcFallback msg
      | RemoteBody.parsed response_text => parseSuccess response_text
    else analyzeInjuryStatusFallback status

/-- The non-200 fallback string of generate_first_aid (line 206). -/
def firstAidStatusFallback : String :=
  "Unable to generate first aid instructions. Please seek professional medical advice."

/-- The exception fallback string of generate_first_aid (line 210). -/
def firstAidExcFallback : String :=
  "Error generating first aid instructions. Please seek professional medical advice."

/-- generate_first_aid (gemini_api.py lines 135-210) as a function of
the request outcome.  The prompt built from the analysis dict (lines
145-171) is pure string formatting that cannot fail and does not affect
which branch is taken, so it is not modelled. -/
def generate_first_aid : RemoteOutcome String → String
  | RemoteOutcome.netExc _ => firstAidExcFallback
  | RemoteOutcome.resp status body =>
    if status = 200 then
      match body with
      | RemoteBody.malformed _ => firstAidExcFallback
      | RemoteBody.parsed first_aid_instructions => first_aid_instructions
    else firstAidStatusFallback

/-- The non-200 fallback string of get_chatbot_response (line 277). -/
def chatbotStatusFallback : String :=
  "I'm sorry, I'm having trouble processing your request right now. For medical emergencies, please call emergency services immediately."

/-- The exception fallback string of get_chatbot_response (line 281). -/
def chatbotExcFallback : String :=
  "I'm sorry, I encountered an error. For medical emergencies, please call emergency services immediately."

/-- get_chatbot_response (gemini_api.py lines 212-281) as a function of
the request outcome; the prompt built from user_query and language is
pure string formatting and is not modelled. -/
def get_chatbot_response : RemoteOutcome String → String
  | RemoteOutcome.netExc _ => chatbotExcFallback
  | RemoteOutcome.resp status body =>
    if status = 200 then
      match body with
      | RemoteBody.malformed _ => chatbotExcFallback
      | RemoteBody.parsed chatbot_response => chatbot_response
    else chatbotStatusFallback

/-- translate_text (translation.py lines 13-56) as a function of the
request outcome.  The payload of a well-formed 200 body is the optional
data.translations[0].translatedText field: none models the
"unexpected response format" branch of line 47.  The guard of line 24
(empty text or target "en") returns the input before any request is
attempted, so the result there does not depend on the outcome. -/
def translate_text (outcome : RemoteOutcome (Option String))
    (text : String) (target_language : String) : String :=
  if text = "" ∨ target_language = "en" then text
  else
    match outcome with
    | RemoteOutcome.netExc _ => text
    | RemoteOutcome.resp status body =>
      if status = 200 then
        match body with
        | RemoteBody.malformed _ => text
        | RemoteBody.parsed none => text
        | RemoteBody.parsed (some translated_text) => translated_text
      else text

/-- Fixture facility used by concrete witnesses. -/
def wHosp1 : Hospital :=
  { name := "Mata Chanan Devi Hospital"
    address := "C-1, Janakpuri, New Delhi, Delhi 110058"
    lat := mkRat 286217 10000
    lng := mkRat 770878 10000
    phone := "011-2550 6242"
    emergency := true
    specialties := ["Emergency Care", "Multi-Specialty"] }

/-- Second fixture facility used by concrete witnesses. -/
def wHosp2 : Hospital :=
  { name := "Orchid Hospital & Heart Center"
    address := "C-2/37, Janakpuri, New Delhi, Delhi 110058"
    lat := mkRat 286198 10000
    lng := mkRat 770910 10000
    phone := "011-4575 5555"
    emergency := true
    specialties := ["Emergency Services", "Multi-Specialty", "Cardiology"] }

/-- Fixture distance assignment used by concrete witnesses: wHosp1 at
3.2 km, anything else at 7.5 km. -/
def wDist : Hospital → ℚ :=
  fun h => if h.name = "Mata Chanan Devi Hospital" then mkRat 16 5 else mkRat 15 2

/-- Distance assignment of the C1 counterexample: the first facility of
the table at raw distance 4.98 km, the second at 4.96 km; both format to
"5.0 km", so the parsed-back sort key ties and the stable sort keeps
table order, which is descending in the raw distance. -/
def cDist : Hospital → ℚ :=
  fun h => if h.name = "Mata Chanan Devi Hospital" then mkRat 249 50 else mkRat 124 25

/-- Distance assignment of the C3 theorems: every facility at raw
distance 5.04 km, which formats and parses back to 5.0. -/
def cDist504 : Hospital → ℚ := fun _ => mkRat 126 25

/-- Evaluation rule for a stable two-element sort (List.mergeSort is
WF-recursive, so concrete runs are evaluated through this rewrite). -/
theorem mergeSort_pair {α : Type} (le : α → α → Bool) (a b : α) :
    List.mergeSort [a, b] le = if le a b then [a, b] else [b, a] := by
  rw [List.mergeSort]
  simp [List.splitInTwo, List.splitAt_eq, List.merge]

/-- The filtering loop is filter-then-annotate. -/
theorem rankEntries_eq (lat lng r : ℚ) (dist : Hospital → ℚ) (table : List Hospital) :
    rankEntries lat lng r dist table
      = (table.filter (fun h => decide (dist h ≤ r))).map (fun h => mkEntry lat lng h (dist h)) := by
  induction table with
  | nil => rfl
  | cons h t ih =>
    by_cases hd : dist h ≤ r <;> simp [rankEntries, List.filter_cons, hd, ih]

/-- Two result records built from the same reference agree only if they
were built from the same facility record. -/
theorem mkEntry_hospital_eq {lat lng d d' : ℚ} {h h' : Hospital}
    (he : mkEntry lat lng h d = mkEntry lat lng h' d') : h = h' := by
  cases h
  cases h'
  simp only [mkEntry, RankedResult.mk.injEq, Hospital.mk.injEq] at he ⊢
  exact ⟨he.1, he.2.1, he.2.2.1, he.2.2.2.1, he.2.2.2.2.1, he.2.2.2.2.2.1, he.2.2.2.2.2.2.1⟩

/-- Membership in the ranker output: exactly the facilities whose
unrounded distance is at most the radius, annotated. -/
theorem mem_find_nearby {dist : Hospital → ℚ} {lat lng r : ℚ} {table : List Hospital}
    {e : RankedResult} :
    e ∈ find_nearby_hospitals dist lat lng r table
      ↔ ∃ h, h ∈ table ∧ dist h ≤ r ∧ e = mkEntry lat lng h (dist h) := by
  rw [find_nearby_hospitals, List.mem_mergeSort, rankEntries_eq]
  simp only [List.mem_map, List.mem_filter, decide_eq_true_eq]
  constructor
  · rintro ⟨h, ⟨hmem, hle⟩, rfl⟩
    exact ⟨h, hmem, hle, rfl⟩
  · rintro ⟨h, hmem, hle, rfl⟩
    exact ⟨h, ⟨hmem, hle⟩, rfl⟩

/-- C4: for every facility coordinate and every reference coordinate,
the distance computed by lines 287-297 of find_nearby_hospitals equals
the haversine formula stated by the spec: R = 6371,
a = sin²(Δlat/2) + cos(lat1)·cos(lat2)·sin²(Δlon/2),
c = 2·atan2(√a, √(1−a)), distance = R·c, with both coordinates first
converted from decimal degrees to radians. -/
theorem C4_distance_is_spec_haversine (lat lng hlat hlng : ℝ) :
    distance_code lat lng hlat hlng = haversine_spec_formula lat lng hlat hlng := rfl

/-- C5: the haversine distance computed by the ranker is symmetric in
the two points. -/
theorem C5_haversine_symmetric (lat1 lng1 lat2 lng2 : ℝ) :
    distance_code lat1 lng1 lat2 lng2 = distance_code lat2 lng2 lat1 lng1 := by
  simp only [distance_code]
  have hsin : ∀ x y : ℝ, Real.sin ((radians x - radians y) / 2) ^ 2
      = Real.sin ((radians y - radians x) / 2) ^ 2 := by
    intro x y
    have hneg : (radians y - radians x) / 2 = -((radians x - radians y) / 2) := by ring
    rw [hneg, Real.sin_neg]
    ring
  rw [hsin lat2 lat1, hsin lng2 lng1,
    mul_comm (Real.cos (radians lat2)) (Real.cos (radians lat1))]

/-- C2: a facility appears in the ranker output iff its unrounded
distance is at most radius_km (inclusive boundary, line 299), and every
output record comes from a facility within the radius. -/
theorem C2_filter_inclusive (dist : Hospital → ℚ) (lat lng r : ℚ) (table : List Hospital)
    (hr : 0 < r) :
    (∀ h ∈ table,
      (mkEntry lat lng h (dist h) ∈ find_nearby_hospitals dist lat lng r table ↔ dist h ≤ r))
    ∧ ∀ e ∈ find_nearby_hospitals dist lat lng r table,
        ∃ h, h ∈ table ∧ e = mkEntry lat lng h (dist h) ∧ dist h ≤ r := by
  constructor
  · intro h hmem
    constructor
    · intro hin
      rcases mem_find_nearby.mp hin with ⟨h', hm', hle', he'⟩
      cases mkEntry_hospital_eq he'
      exact hle'
    · intro hle
      exact mem_find_nearby.mpr ⟨h, hmem, hle, rfl⟩
  · intro e he
    rcases mem_find_nearby.mp he with ⟨h, hm, hle, rfl⟩
    exact ⟨h, hm, rfl, hle⟩

/-- Concrete instance of C2: the 3.2 km fixture facility is within a
5 km radius iff 3.2 ≤ 5. -/
theorem C2_filter_inclusive_witness :
    mkEntry 0 0 wHosp1 (wDist wHosp1) ∈ find_nearby_hospitals wDist 0 0 5 [wHosp1, wHosp2]
      ↔ wDist wHosp1 ≤ 5 :=
  (C2_filter_inclusive wDist 0 0 5 [wHosp1, wHosp2] (by decide)).1 wHosp1 (by decide)

/-- C7: the ranker raises no error: the empty facility table yields the
empty sequence (a normal outcome, not an exception — the embedding is a
total function), and the output never has more records than the table. -/
theorem C7_total_empty_and_bounded (dist : Hospital → ℚ) (lat lng r : ℚ) (hr : 0 < r)
    (table : List Hospital) :
    find_nearby_hospitals dist lat lng r [] = []
    ∧ (find_nearby_hospitals dist lat lng r table).length ≤ table.length := by
  constructor
  · simp [find_nearby_hospitals, rankEntries]
  · rw [find_nearby_hospitals, List.length_mergeSort, rankEntries_eq, List.length_map]
    exact List.length_filter_le _ _

/-- Concrete instance of C7 at radius 5 and a two-entry table. -/
theorem C7_total_empty_and_bounded_witness :
    find_nearby_hospitals wDist 0 0 5 [] = []
    ∧ (find_nearby_hospitals wDist 0 0 5 [wHosp1, wHosp2]).length ≤ 2 :=
  C7_total_empty_and_bounded wDist 0 0 5 (by decide) [wHosp1, wHosp2]

/-- C9: every output record is built (lines 300-305) from a copy of a
table entry: name, address, lat, lng, phone, emergency and specialties
are preserved unchanged, and the record is exactly the table entry plus
the two added keys; the table itself is never mutated (the embedding
constructs a fresh record from the entry, as hospital.copy() does). -/
theorem C9_frame_preservation (dist : Hospital → ℚ) (lat lng r : ℚ) (table : List Hospital) :
    ∀ e ∈ find_nearby_hospitals dist lat lng r table, ∃ h, h ∈ table ∧
      e = mkEntry lat lng h (dist h) ∧
      e.name = h.name ∧ e.address = h.address ∧ e.lat = h.lat ∧ e.lng = h.lng ∧
      e.phone = h.phone ∧ e.emergency = h.emergency ∧ e.specialties = h.specialties := by
  intro e he
  rcases mem_find_nearby.mp he with ⟨h, hm, hle, rfl⟩
  exact ⟨h, hm, rfl, rfl, rfl, rfl, rfl, rfl, rfl, rfl⟩

/-- Concrete instance of C9: the record built for the fixture facility
preserves its name and specialties. -/
theorem C9_frame_preservation_witness :
    (mkEntry 0 0 wHosp1 (wDist wHosp1)).name = wHosp1.name
    ∧ (mkEntry 0 0 wHosp1 (wDist wHosp1)).specialties = wHosp1.specialties := by
  obtain ⟨h, hm, -, hname, -, -, -, -, -, hspec⟩ :=
    C9_frame_preservation wDist 0 0 5 [wHosp1] (mkEntry 0 0 wHosp1 (wDist wHosp1))
      (mem_find_nearby.mpr ⟨wHosp1, by decide, by decide, rfl⟩)
  cases List.mem_singleton.mp hm
  exact ⟨hname, hspec⟩

/-- C6: every output record carries the distance formatted to one
decimal followed by " km", and the directions URL is exactly the
Google-Maps template with the reference coordinates as origin and the
facility coordinates as destination; in particular for reference
(28.61, 77.10) and facility (28.62, 77.09) the URL is the exact
substitution of those coordinate values (Python renders the float 77.10
as 77.1). -/
theorem C6_record_format (dist : Hospital → ℚ) (lat lng r : ℚ) (table : List Hospital) :
    (∀ e ∈ find_nearby_hospitals dist lat lng r table, ∃ h, h ∈ table ∧
      e.distance = fmtFix1 (dist h) ++ " km" ∧
      e.directions_url = "https://www.google.com/maps/dir/?api=1&origin=" ++ fmtCoord lat
        ++ "," ++ fmtCoord lng ++ "&destination=" ++ fmtCoord h.lat ++ "," ++ fmtCoord h.lng
        ++ "&travelmode=driving")
    ∧ directionsUrl (mkRat 2861 100) (mkRat 771 10) (mkRat 2862 100) (mkRat 7709 100)
        = "https://www.google.com/maps/dir/?api=1&origin=28.61,77.1&destination=28.62,77.09&travelmode=driving" := by
  constructor
  · intro e he
    rcases mem_find_nearby.mp he with ⟨h, hm, hle, rfl⟩
    exact ⟨h, hm, rfl, rfl⟩
  · decide

/-- Concrete instance of C6: the fixture record's distance string. -/
theorem C6_record_format_witness :
    (mkEntry 0 0 wHosp1 (wDist wHosp1)).distance = fmtFix1 (wDist wHosp1) ++ " km" := by
  obtain ⟨h, hm, hd, -⟩ := (C6_record_format wDist 0 0 5 [wHosp1]).1
    (mkEntry 0 0 wHosp1 (wDist wHosp1))
    (mem_find_nearby.mpr ⟨wHosp1, by decide, by decide, rfl⟩)
  cases List.mem_singleton.mp hm
  exact hd

/-- C3 fails on the code: no code path compares a rounded distance
against the radius.  At radius 5, a facility at raw distance
5.04 km — whose distance rounds to 5.0, i.e. round1 gives 5 ≤ 5 — is
NOT treated as within the radius: the output is empty, because the
filter at line 299 uses the raw distance (5 < 5.04). -/
theorem C3_counterexample :
    find_nearby_hospitals cDist504 0 0 5 [wHosp1] = []
    ∧ round1 (cDist504 wHosp1) = 5 ∧ (5 : ℚ) < cDist504 wHosp1 := by
  refine ⟨?_, by decide, by decide⟩
  rw [find_nearby_hospitals]
  have h1 : rankEntries 0 0 5 cDist504 [wHosp1] = [] := by decide
  rw [h1]
  exact List.mergeSort_nil

/-- C3 amended: rounding to one decimal occurs only in the displayed
string and the sort key, never before the radius comparison; a facility
whose raw distance exceeds the radius is excluded even when its rounded
distance is within it (e.g. raw 5.04 km against a 5 km radius). -/
theorem C3_amended_raw_filter (dist : Hospital → ℚ) (lat lng r : ℚ)
    (table : List Hospital) (h : Hospital) (hgt : r < dist h)
    (hround : round1 (dist h) ≤ r) :
    mkEntry lat lng h (dist h) ∉ find_nearby_hospitals dist lat lng r table := by
  intro hin
  rcases mem_find_nearby.mp hin with ⟨h', hm', hle', he'⟩
  cases mkEntry_hospital_eq he'
  exact absurd hle' (not_le.mpr hgt)

/-- Concrete instance of the amended C3: the 5.04 km facility, whose
rounded distance is 5.0 ≤ 5, is excluded from the 5 km search. -/
theorem C3_amended_raw_filter_witness :
    mkEntry 0 0 wHosp1 (cDist504 wHosp1) ∉ find_nearby_hospitals cDist504 0 0 5 [wHosp1] :=
  C3_amended_raw_filter cDist504 0 0 5 [wHosp1] wHosp1 (by decide) (by decide)

/-- C1 fails on the code: the sort of line 310 keys on the value parsed
back from the one-decimal distance string, not on the unrounded
distance.  With the first table facility at raw distance 4.98 km and the
second at 4.96 km (both format to "5.0 km", so the keys tie), the
stable sort keeps table order, and the output lists the 4.98 km facility
before the 4.96 km one — not ascending in the unrounded distance. -/
theorem C1_counterexample :
    find_nearby_hospitals cDist 0 0 5 [wHosp1, wHosp2]
      = [mkEntry 0 0 wHosp1 (cDist wHosp1), mkEntry 0 0 wHosp2 (cDist wHosp2)]
    ∧ cDist wHosp2 < cDist wHosp1
    ∧ cDist wHosp1 ≤ 5 ∧ cDist wHosp2 ≤ 5 := by
  refine ⟨?_, by decide, by decide, by decide⟩
  rw [find_nearby_hospitals]
  have h1 : rankEntries 0 0 5 cDist [wHosp1, wHosp2]
      = [mkEntry 0 0 wHosp1 (cDist wHosp1), mkEntry 0 0 wHosp2 (cDist wHosp2)] := by decide
  rw [h1, mergeSort_pair]
  decide

/-- C1 amended: the output is sorted stably in ascending order of the
sort key of line 310 — the value parsed back from the one-decimal
distance string, i.e. the rounded distance — with records whose keys tie
kept in original table order and no other secondary key.  (This
coincides with ascending unrounded distance except when distinct raw
distances round to the same tenth.)  First conjunct: ascending by the
parsed key; second conjunct: for every key value, the records carrying
that key appear exactly as in the unsorted filtered table order. -/
theorem C1_amended_sorted_stable (dist : Hospital → ℚ) (lat lng r : ℚ) (table : List Hospital) :
    (find_nearby_hospitals dist lat lng r table).Pairwise (fun a b => sortKey a ≤ sortKey b)
    ∧ ∀ k : ℚ, (find_nearby_hospitals dist lat lng r table).filter (fun e => decide (sortKey e = k))
        = (rankEntries lat lng r dist table).filter (fun e => decide (sortKey e = k)) := by
  have htrans : ∀ a b c : RankedResult, decide (sortKey a ≤ sortKey b) = true →
      decide (sortKey b ≤ sortKey c) = true → decide (sortKey a ≤ sortKey c) = true := by
    intro a b c hab hbc
    simp only [decide_eq_true_eq] at hab hbc ⊢
    exact le_trans hab hbc
  have htotal : ∀ a b : RankedResult,
      (decide (sortKey a ≤ sortKey b) || decide (sortKey b ≤ sortKey a)) = true := by
    intro a b
    simpa using le_total (sortKey a) (sortKey b)
  constructor
  · have hs := List.sorted_mergeSort htrans htotal (rankEntries lat lng r dist table)
    rw [find_nearby_hospitals]
    exact hs.imp (fun hab => by simpa using hab)
  · intro k
    rw [find_nearby_hospitals]
    have hpw : (List.filter (fun e => decide (sortKey e = k))
        (rankEntries lat lng r dist table)).Pairwise
        (fun a b => decide (sortKey a ≤ sortKey b) = true) := by
      apply List.pairwise_of_forall_mem_list
      intro a ha b hb
      have hka : sortKey a = k := by simpa using (List.mem_filter.mp ha).2
      have hkb : sortKey b = k := by simpa using (List.mem_filter.mp hb).2
      simp [hka, hkb]
    have hsubl := List.sublist_mergeSort htrans htotal hpw
      (List.filter_sublist (rankEntries lat lng r dist table))
    have hfe : List.filter (fun e => decide (sortKey e = k))
        (List.filter (fun e => decide (sortKey e = k)) (rankEntries lat lng r dist table))
        = List.filter (fun e => decide (sortKey e = k)) (rankEntries lat lng r dist table) :=
      List.filter_eq_self.mpr (fun a ha => (List.mem_filter.mp ha).2)
    have h2 := hsubl.filter (fun e => decide (sortKey e = k))
    rw [hfe] at h2
    have hperm := List.mergeSort_perm (rankEntries lat lng r dist table)
      (fun a b => decide (sortKey a ≤ sortKey b))
    have hlen := (hperm.filter (fun e => decide (sortKey e = k))).length_eq
    exact (h2.eq_of_length hlen.symm).symm

/-- C8: in analyze_injury, generate_first_aid, get_chatbot_response and
translate_text, every remote-API failure — a network exception, a
non-200 status, or a malformed response body (JSON decode / field
extraction failure, and for translation also a well-formed body missing
the translation fields) — is caught inside the function and mapped to
the corresponding canned fallback value (for translation, the
untranslated input text); all four embeddings are total functions of the
outcome, so no exception reaches the caller. -/
theorem C8_remote_failure_fallbacks :
    (∀ (p : String → AnalysisResult) (msg : String),
        analyze_injury p (RemoteOutcome.netExc msg) = analyzeInjuryExcFallback msg)
    ∧ (∀ (p : String → AnalysisResult) (status : Nat) (body : RemoteBody String),
        status ≠ 200 → analyze_injury p (RemoteOutcome.resp status body)
          = analyzeInjuryStatusFallback status)
    ∧ (∀ (p : String → AnalysisResult) (msg : String),
        analyze_injury p (RemoteOutcome.resp 200 (RemoteBody.malformed msg))
          = analyzeInjuryExcFallback msg)
    ∧ (∀ msg : String, generate_first_aid (RemoteOutcome.netExc msg) = firstAidExcFallback)
    ∧ (∀ (status : Nat) (body : RemoteBody String),
        status ≠ 200 → generate_first_aid (RemoteOutcome.resp status body) = firstAidStatusFallback)
    ∧ (∀ msg : String,
        generate_first_aid (RemoteOutcome.resp 200 (RemoteBody.malformed msg)) = firstAidExcFallback)
    ∧ (∀ msg : String, get_chatbot_response (RemoteOutcome.netExc msg) = chatbotExcFallback)
    ∧ (∀ (status : Nat) (body : RemoteBody String),
        status ≠ 200 → get_chatbot_response (RemoteOutcome.resp status body) = chatbotStatusFallback)
    ∧ (∀ msg : String,
        get_chatbot_response (RemoteOutcome.resp 200 (RemoteBody.malformed msg)) = chatbotExcFallback)
    ∧ (∀ (t l msg : String), translate_text (RemoteOutcome.netExc msg) t l = t)
    ∧ (∀ (t l : String) (status : Nat) (body : RemoteBody (Option String)),
        status ≠ 200 → translate_text (RemoteOutcome.resp status body) t l = t)
    ∧ (∀ (t l msg : String),
        translate_text (RemoteOutcome.resp 200 (RemoteBody.malformed msg)) t l = t)
    ∧ (∀ t l : String,
        translate_text (RemoteOutcome.resp 200 (RemoteBody.parsed none)) t l = t) := by
  refine ⟨fun p msg => rfl, fun p status body hst => by simp [analyze_injury, hst],
    fun p msg => rfl, fun msg => rfl,
    fun status body hst => by simp [generate_first_aid, hst], fun msg => rfl,
    fun msg => rfl, fun status body hst => by simp [get_chatbot_response, hst], fun msg => rfl,
    ?_, ?_, ?_, ?_⟩
  · intro t l msg
    by_cases hg : t = "" ∨ l = "en" <;> simp [translate_text, hg]
  · intro t l status body hst
    by_cases hg : t = "" ∨ l = "en" <;> simp [translate_text, hg, hst]
  · intro t l msg
    by_cases hg : t = "" ∨ l = "en" <;> simp [translate_text, hg]
  · intro t l
    by_cases hg : t = "" ∨ l = "en" <;> simp [translate_text, hg]

/-- Concrete instances of C8: a 500 from the vision endpoint, a 503 from
the guidance endpoint, a 429 from the chatbot endpoint and a 404 from
the translation endpoint all map to their canned fallbacks. -/
theorem C8_remote_failure_fallbacks_witness :
    analyze_injury (fun _ => analyzeInjuryExcFallback "") (RemoteOutcome.resp 500 (RemoteBody.parsed "x"))
        = analyzeInjuryStatusFallback 500
    ∧ generate_first_aid (RemoteOutcome.resp 503 (RemoteBody.parsed "x")) = firstAidStatusFallback
    ∧ get_chatbot_response (RemoteOutcome.resp 429 (RemoteBody.parsed "x")) = chatbotStatusFallback
    ∧ translate_text (RemoteOutcome.resp 404 (RemoteBody.parsed (some "bonjour"))) "hello" "fr"
        = "hello" := by
  obtain ⟨-, h2, -, -, h5, -, -, h8, -, -, h11, -, -⟩ := C8_remote_failure_fallbacks
  exact ⟨h2 _ 500 _ (by decide), h5 503 _ (by decide), h8 429 _ (by decide),
    h11 "hello" "fr" 404 _ (by decide)⟩

/-- C10: translate_text returns its input unchanged, independently of
any request outcome, whenever the input text is empty or the target
language is "en" — the guard of line 24 precedes the network request, so
in particular translate_text(t, "en") = t for every t. -/
theorem C10_translate_guard_identity :
    (∀ (outcome : RemoteOutcome (Option String)) (t : String),
        translate_text outcome t "en" = t)
    ∧ ∀ (outcome : RemoteOutcome (Option String)) (l : String),
        translate_text outcome "" l = "" := by
  constructor
  · intro o t
    simp [translate_text]
  · intro o l
    simp [translate_text]
